import Mathlib

/-!
# goxlr-webui: device capability query and application entry point

A shallow embedding of the two source files of the web UI

* `src/goxlr/util.js`  (the function `isDeviceMini`)
* `src/main.js`        (the module top level that builds and mounts the application)

JavaScript values are an inductive type, exceptions are `Except` results, and the
objects owned by other modules (the shared store, the UI framework, the icon library)
are interfaces passed as parameters, with the state they own threaded explicitly.
-/

set_option autoImplicit false

namespace GoXLR

/-! ## JavaScript values -/

/-- The JavaScript values a device descriptor is built from.  Objects are finite lists
of own properties, first binding wins.  The payload of a number is never inspected by
the embedded code. -/
inductive JSVal where
  | undefined : JSVal
  | null : JSVal
  | bool (b : Bool) : JSVal
  | num (n : Int) : JSVal
  | str (s : String) : JSVal
  | obj (fields : List (String × JSVal)) : JSVal

/-- The two values that have no properties at all. -/
inductive Nullish where
  | undefined : Nullish
  | null : Nullish
deriving DecidableEq, Repr

/-- Exceptions that can surface from the embedded code. -/
inductive JSError where
  /-- TypeError: Cannot read properties of undefined / null (reading key). -/
  | cannotRead (base : Nullish) (key : String) : JSError
  /-- Any exception thrown by code of another module. -/
  | thrown (msg : String) : JSError
deriving DecidableEq, Repr

/-- Whether a value is `undefined` or `null`. -/
def JSVal.isNullish : JSVal → Bool
  | .undefined => true
  | .null => true
  | _ => false

/-- Whether a value is a string. -/
def JSVal.isString : JSVal → Bool
  | .str _ => true
  | _ => false

/-- The member access `base.key`.  Reading a property of `undefined` or `null` throws a
TypeError; an object yields the bound value or `undefined` when the key is absent; a
primitive (boolean, number, string) yields `undefined`, since the only keys read by the
embedded code are `hardware` and `device_type`, which no built-in prototype defines. -/
def getProp (base : JSVal) (key : String) : Except JSError JSVal :=
  match base with
  | .undefined => .error (.cannotRead .undefined key)
  | .null => .error (.cannotRead .null key)
  | .obj fields =>
    match fields.lookup key with
    | some v => .ok v
    | none => .ok .undefined
  | _ => .ok .undefined

/-- The strict equality `v === lit` for a string literal `lit`: true exactly when `v` is
a string with the same characters; values of any other type compare unequal, without
coercion. -/
def strictEqStr (v : JSVal) (lit : String) : Bool :=
  match v with
  | .str s => decide (s = lit)
  | _ => false

/-! ## The shared store -/

/-- The interface of the `store` object imported from `@/goxlr/store.js`, over the state
`S` that the store owns.  The store module is not among the source files, so the method
is a parameter: a call may return a value or throw, and leaves a store state behind. -/
structure StoreApi (S : Type) where
  getActiveDevice : S → Except JSError JSVal × S

/-- Modelled from the spec: the state of the shared state container of
`@/goxlr/store.js`, which is missing from the sources.  It holds the descriptor of the
active device (`undefined` while no device is active) next to everything else the store
keeps. -/
structure Store where
  activeDevice : JSVal
  rest : List (String × JSVal)

/-- Modelled from the spec: the getter `getActiveDevice(): DeviceDescriptor | undefined`
of the missing store module, which hands out the active descriptor and writes nothing. -/
def Store.getActiveDevice (s : Store) : Except JSError JSVal × Store :=
  (.ok s.activeDevice, s)

/-- Modelled from the spec: the store object of `@/goxlr/store.js` as an instance of the
interface, with the getter of the spec as its only method. -/
def store : StoreApi Store where
  getActiveDevice := Store.getActiveDevice

/-! ## `src/goxlr/util.js` -/

/-- The expression `d.hardware.device_type` on a descriptor `d`. -/
def deviceType (d : JSVal) : Except JSError JSVal :=
  match getProp d "hardware" with
  | .error e => .error e
  | .ok hw => getProp hw "device_type"

/-- The function `isDeviceMini` of `util.js`:
`return store.getActiveDevice().hardware.device_type === 'Mini'`.
The result is the returned boolean or the exception, paired with the store state after
the call. -/
def isDeviceMini {S : Type} (store : StoreApi S) (s : S) : Except JSError Bool × S :=
  match store.getActiveDevice s with
  | (.error e, s1) => (.error e, s1)
  | (.ok d, s1) =>
    match getProp d "hardware" with
    | .error e => (.error e, s1)
    | .ok hw =>
      match getProp hw "device_type" with
      | .error e => (.error e, s1)
      | .ok t => (.ok (strictEqStr t "Mini"), s1)

/-- A descriptor of a Mini device. -/
def miniDevice : JSVal :=
  .obj [("serial", .str "S210500771CQK"),
        ("hardware", .obj [("usb_device", .num 3), ("device_type", .str "Mini")])]

/-- A descriptor of a full-size device. -/
def fullDevice : JSVal :=
  .obj [("hardware", .obj [("device_type", .str "Full")]), ("serial", .str "S201200586CQK")]

/-- A descriptor whose classification is spelled in lower case. -/
def lowerCaseDevice : JSVal :=
  .obj [("hardware", .obj [("device_type", .str "mini")])]

/-- A descriptor whose hardware record carries no classification. -/
def untypedDevice : JSVal :=
  .obj [("hardware", .obj [("usb_device", .num 3)])]

/-- The value `isDeviceMini` computes from the descriptor the getter returned:
`d.hardware.device_type === 'Mini'`, or the exception of the member accesses. -/
def queryResult (d : JSVal) : Except JSError Bool :=
  match deviceType d with
  | .error e => .error e
  | .ok t => .ok (strictEqStr t "Mini")

/-- A second Mini descriptor, differing from `miniDevice` in every other field. -/
def otherMiniDevice : JSVal :=
  .obj [("hardware", .obj [("device_type", .str "Mini"), ("colour_way", .str "White")]),
        ("serial", .str "S220202153CQK"), ("shutdown", .bool false)]

/-! ## `src/main.js` -/

/-- A binding imported from another module, identified by its imported name. -/
structure Import where
  name : String
deriving DecidableEq, Repr

/-- The default export of `./App.vue`, the root component. -/
def App : Import := ⟨"App"⟩
/-- The default export of `./router`. -/
def router : Import := ⟨"router"⟩
/-- The icon-rendering component of `@fortawesome/vue-fontawesome`. -/
def FontAwesomeIcon : Import := ⟨"FontAwesomeIcon"⟩
/-- The icon `angle-down`. -/
def faAngleDown : Import := ⟨"faAngleDown"⟩
/-- The icon `clock`. -/
def faClock : Import := ⟨"faClock"⟩
/-- The icon `gear`. -/
def faGear : Import := ⟨"faGear"⟩
/-- The icon `hand-pointer`. -/
def faHandPointer : Import := ⟨"faHandPointer"⟩
/-- The icon `palette`. -/
def faPalette : Import := ⟨"faPalette"⟩
/-- The icon of the muted volume. -/
def faVolumeXmark : Import := ⟨"faVolumeXmark"⟩

/-- The names imported from `@fortawesome/free-solid-svg-icons` (lines 9 to 16), in the
order of the import clause. -/
def importedIcons : List Import :=
  [faAngleDown, faClock, faGear, faHandPointer, faPalette, faVolumeXmark]

/-- A statement sequence acting on the state `W` of the outside world (the page with its
document, the global icon library, the application instances): from a state to a value
or an exception, and the state left behind. -/
def Script (W α : Type) : Type :=
  W → Except JSError α × W

/-- Sequencing of statements: an exception ends the script at the statement that threw. -/
instance instMonadScript (W : Type) : Monad (Script W) where
  pure a := fun w => (.ok a, w)
  bind m f := fun w =>
    match m w with
    | (.error e, w1) => (.error e, w1)
    | (.ok a, w1) => f a w1

/-- The functions of other packages that `main.js` calls, over the state `W` they act on
and the type `A` of application instances.  None of them is among the source files, so
each is a parameter: a call may return or throw, and leaves a state behind. -/
structure Framework (W A : Type) where
  createApp : Import → Script W A
  libraryAdd : List Import → Script W Unit
  component : A → String → Import → Script W Unit
  use : A → Import → Script W Unit
  mount : A → String → Script W Unit

/-- The statements of `main.js` (lines 18 to 23).  The import declarations above them
are resolved by the module loader before the first statement runs and make no call of
their own here; the values of `app.component`, `app.use` and `app.mount` are dropped. -/
def main {W A : Type} (fw : Framework W A) : Script W Unit := do
  let app ← fw.createApp App
  fw.libraryAdd [faAngleDown, faHandPointer, faClock, faPalette, faGear, faVolumeXmark]
  fw.component app "font-awesome-icon" FontAwesomeIcon
  fw.use app router
  fw.mount app "#app"

/-! ### Observing the calls a framework receives -/

/-- One call received by the framework, with its receiver and arguments. -/
inductive Call (A : Type) where
  | createApp (root : Import) : Call A
  | libraryAdd (icons : List Import) : Call A
  | component (app : A) (name : String) (comp : Import) : Call A
  | use (app : A) (plugin : Import) : Call A
  | mount (app : A) (selector : String) : Call A
deriving DecidableEq, Repr

/-- A framework function under observation: it does to the world what `op` does, returns
what `op` returns, and notes in a journal kept next to the world that it was called. -/
def observe {W A α : Type} (c : Call A) (op : Script W α) : Script (W × List (Call A)) α :=
  fun st => ((op st.1).1, ((op st.1).2, st.2 ++ [c]))

/-- The framework `fw` under observation: every function of the interface journals the
call it receives.  The script cannot write the journal; only a call into the framework
adds an entry. -/
def recording {W A : Type} (fw : Framework W A) : Framework (W × List (Call A)) A where
  createApp := fun root => observe (.createApp root) (fw.createApp root)
  libraryAdd := fun icons => observe (.libraryAdd icons) (fw.libraryAdd icons)
  component := fun app name comp =>
    observe (.component app name comp) (fw.component app name comp)
  use := fun app plugin => observe (.use app plugin) (fw.use app plugin)
  mount := fun app selector => observe (.mount app selector) (fw.mount app selector)

/-- The calls the framework `fw` receives, in order, when the script runs once from the
state `w`. -/
def callsOf {W A : Type} (fw : Framework W A) (w : W) : List (Call A) :=
  (main (recording fw) (w, [])).2.2

/-- The calls of a complete run on the application instance `app`. -/
def bootCalls {A : Type} (app : A) : List (Call A) :=
  [.createApp App,
   .libraryAdd [faAngleDown, faHandPointer, faClock, faPalette, faGear, faVolumeXmark],
   .component app "font-awesome-icon" FontAwesomeIcon,
   .use app router,
   .mount app "#app"]

/-- The six icons the bootstrap is to register. -/
def sixIcons : List Import :=
  [faAngleDown, faHandPointer, faClock, faPalette, faGear, faVolumeXmark]

/-! ### A sample page -/

/-- A page as the sample framework below keeps it: the application instances created so
far (an instance is known by its number), the contents of the global icon library, the
components and plugins bound to instances, and the selectors instances are mounted on. -/
structure Page where
  instances : Nat
  icons : List Import
  components : List (Nat × String × Import)
  plugins : List (Nat × Import)
  mounted : List (Nat × String)
deriving DecidableEq, Repr

/-- A page on which nothing has happened yet. -/
def blankPage : Page := ⟨0, [], [], [], []⟩

/-- A sample framework whose calls all return and write what they were given into the
page. -/
def plainFramework : Framework Page Nat where
  createApp := fun _ p => (.ok p.instances, { p with instances := p.instances + 1 })
  libraryAdd := fun icons p => (.ok (), { p with icons := p.icons ++ icons })
  component := fun app name comp p =>
    (.ok (), { p with components := p.components ++ [(app, name, comp)] })
  use := fun app plugin p => (.ok (), { p with plugins := p.plugins ++ [(app, plugin)] })
  mount := fun app selector p => (.ok (), { p with mounted := p.mounted ++ [(app, selector)] })

/-- The sample framework with a plugin attachment that throws and writes nothing. -/
def failingUseFramework : Framework Page Nat where
  createApp := plainFramework.createApp
  libraryAdd := plainFramework.libraryAdd
  component := plainFramework.component
  use := fun _ _ p => (.error (.thrown "plugin"), p)
  mount := plainFramework.mount

/-- The page after a complete run of the script on the sample framework. -/
def bootedPage : Page :=
  ⟨1, [faAngleDown, faHandPointer, faClock, faPalette, faGear, faVolumeXmark],
   [(0, "font-awesome-icon", FontAwesomeIcon)], [(0, router)], [(0, "#app")]⟩

/-! ## Evaluation on sample inputs -/

example : (isDeviceMini store ⟨miniDevice, []⟩).1 = .ok true := by rfl
example : (isDeviceMini store ⟨fullDevice, []⟩).1 = .ok false := by rfl
example : (isDeviceMini store ⟨lowerCaseDevice, []⟩).1 = .ok false := by rfl
example : (isDeviceMini store ⟨untypedDevice, []⟩).1 = .ok false := by rfl
example : (isDeviceMini store ⟨.undefined, []⟩).1
    = .error (.cannotRead .undefined "hardware") := by rfl
example : main plainFramework blankPage = (.ok (), bootedPage) := by rfl
example : callsOf plainFramework blankPage = bootCalls 0 := by rfl
example : (main failingUseFramework blankPage).1 = .error (.thrown "plugin") := by rfl
example : (main failingUseFramework blankPage).2.mounted = [] := by rfl
example : callsOf failingUseFramework blankPage = (bootCalls 0).take 4 := by rfl

/-! ## Lemmas on member access and on the query -/

theorem getProp_error_iff (base : JSVal) (key : String) :
    (∃ e, getProp base key = .error e) ↔ base.isNullish = true := by
  cases base <;> simp [getProp, JSVal.isNullish]
  rename_i fields
  cases fields.lookup key <;> simp

theorem getProp_obj_ok (fields : List (String × JSVal)) (key : String) :
    ∃ v, getProp (.obj fields) key = .ok v := by
  cases h : fields.lookup key <;> simp [getProp, h]

/-- Once the getter has returned the descriptor `d`, the query is `queryResult d` and the
store is the one the getter left. -/
theorem isDeviceMini_of_get {S : Type} (api : StoreApi S) (s s1 : S) (d : JSVal)
    (hget : api.getActiveDevice s = (.ok d, s1)) :
    isDeviceMini api s = (queryResult d, s1) := by
  unfold isDeviceMini queryResult deviceType
  rw [hget]
  cases h1 : getProp d "hardware" with
  | error e => simp [h1]
  | ok hw =>
    cases h2 : getProp hw "device_type" with
    | error e => simp [h1, h2]
    | ok t => simp [h1, h2]

/-- When the getter throws, the query rethrows and the store is the one the getter left. -/
theorem isDeviceMini_of_get_error {S : Type} (api : StoreApi S) (s s1 : S) (e : JSError)
    (hget : api.getActiveDevice s = (.error e, s1)) :
    isDeviceMini api s = (.error e, s1) := by
  unfold isDeviceMini
  rw [hget]

/-- The store state after the query is the one its getter call leaves. -/
theorem isDeviceMini_snd {S : Type} (api : StoreApi S) (s : S) :
    (isDeviceMini api s).2 = (api.getActiveDevice s).2 := by
  rcases h : api.getActiveDevice s with ⟨r, s1⟩
  cases r with
  | error e => rw [isDeviceMini_of_get_error api s s1 e h]
  | ok d => rw [isDeviceMini_of_get api s s1 d h]

theorem strictEqStr_eq_true_iff (v : JSVal) (lit : String) :
    strictEqStr v lit = true ↔ v = .str lit := by
  cases v <;> simp [strictEqStr]

theorem strictEqStr_eq_false_iff (v : JSVal) (lit : String) :
    strictEqStr v lit = false ↔ v ≠ .str lit := by
  rw [Ne, ← strictEqStr_eq_true_iff v lit]
  simp

theorem strictEqStr_of_not_string (v : JSVal) (lit : String) (h : v.isString = false) :
    strictEqStr v lit = false := by
  cases v <;> simp_all [strictEqStr, JSVal.isString]

theorem getProp_obj_none (fields : List (String × JSVal)) (key : String)
    (h : fields.lookup key = none) : getProp (.obj fields) key = .ok .undefined := by
  simp [getProp, h]

theorem getProp_obj_some (fields : List (String × JSVal)) (key : String) (v : JSVal)
    (h : fields.lookup key = some v) : getProp (.obj fields) key = .ok v := by
  simp [getProp, h]

theorem deviceType_of_hardware (d hw : JSVal) (h : getProp d "hardware" = .ok hw) :
    deviceType d = getProp hw "device_type" := by
  simp [deviceType, h]

theorem queryResult_of_deviceType (d t : JSVal) (h : deviceType d = .ok t) :
    queryResult d = .ok (strictEqStr t "Mini") := by
  simp [queryResult, h]

/-! ## The device capability query -/

/-- C1: when the getter returns a descriptor whose `hardware.device_type` is the string
`t`, `isDeviceMini` returns the boolean `t = "Mini"`: true exactly for the string `Mini`
itself, false for every other string. -/
theorem isDeviceMini_iff_mini {S : Type} (api : StoreApi S) (s s1 : S) (d : JSVal)
    (t : String)
    (hget : api.getActiveDevice s = (.ok d, s1))
    (htype : deviceType d = .ok (.str t)) :
    (isDeviceMini api s).1 = .ok (decide (t = "Mini")) ∧
    ((isDeviceMini api s).1 = .ok true ↔ t = "Mini") ∧
    ((isDeviceMini api s).1 = .ok false ↔ t ≠ "Mini") := by
  have h : (isDeviceMini api s).1 = .ok (decide (t = "Mini")) := by
    rw [isDeviceMini_of_get api s s1 d hget, queryResult_of_deviceType d _ htype]
    rfl
  refine ⟨h, ?_, ?_⟩ <;> rw [h] <;> simp

/-- Instances of C1 on the sample store: `Mini` gives true, `mini` gives false. -/
theorem isDeviceMini_iff_mini_witness :
    store.getActiveDevice ⟨miniDevice, []⟩ = (.ok miniDevice, ⟨miniDevice, []⟩) ∧
    deviceType miniDevice = .ok (.str "Mini") ∧
    deviceType lowerCaseDevice = .ok (.str "mini") ∧
    (isDeviceMini store ⟨miniDevice, []⟩).1 = .ok true ∧
    (isDeviceMini store ⟨lowerCaseDevice, []⟩).1 = .ok false :=
  ⟨rfl, rfl, rfl,
   (isDeviceMini_iff_mini store ⟨miniDevice, []⟩ ⟨miniDevice, []⟩ miniDevice "Mini"
      rfl rfl).2.1.2 rfl,
   (isDeviceMini_iff_mini store ⟨lowerCaseDevice, []⟩ ⟨lowerCaseDevice, []⟩ lowerCaseDevice
      "mini" rfl rfl).2.2.2 (by decide)⟩

/-- C2: the query keeps nothing from one call to the next.  If the getter returns a
descriptor of type `Mini` in the store state of the first call and a descriptor with any
other `hardware.device_type` in the store state of the second call, the first call
returns true and the second returns false. -/
theorem isDeviceMini_not_cached {S : Type} (api : StoreApi S) (s1 s1a s2 s2a : S)
    (d1 d2 v : JSVal)
    (hget1 : api.getActiveDevice s1 = (.ok d1, s1a))
    (htype1 : deviceType d1 = .ok (.str "Mini"))
    (hget2 : api.getActiveDevice s2 = (.ok d2, s2a))
    (htype2 : deviceType d2 = .ok v)
    (hother : v ≠ .str "Mini") :
    (isDeviceMini api s1).1 = .ok true ∧ (isDeviceMini api s2).1 = .ok false := by
  constructor
  · rw [isDeviceMini_of_get api s1 s1a d1 hget1, queryResult_of_deviceType d1 _ htype1]
    rfl
  · rw [isDeviceMini_of_get api s2 s2a d2 hget2, queryResult_of_deviceType d2 _ htype2]
    simp only [(strictEqStr_eq_false_iff v "Mini").2 hother]

/-- Instance of C2: a Mini device is active at the first call, a full-size device at
the second. -/
theorem isDeviceMini_not_cached_witness :
    deviceType miniDevice = .ok (.str "Mini") ∧
    deviceType fullDevice = .ok (.str "Full") ∧
    (isDeviceMini store ⟨miniDevice, []⟩).1 = .ok true ∧
    (isDeviceMini store ⟨fullDevice, []⟩).1 = .ok false :=
  ⟨rfl, rfl,
   isDeviceMini_not_cached store ⟨miniDevice, []⟩ ⟨miniDevice, []⟩ ⟨fullDevice, []⟩
     ⟨fullDevice, []⟩ miniDevice fullDevice (.str "Full") rfl rfl rfl rfl
     (by simp)⟩

/-- C3: when the getter leaves the store state `s` as it is, a second call of the query,
made in the state the first call left, has the outcome of the first call and leaves the
same state again. -/
theorem isDeviceMini_twice {S : Type} (api : StoreApi S) (s : S)
    (hread : (api.getActiveDevice s).2 = s) :
    isDeviceMini api (isDeviceMini api s).2 = isDeviceMini api s := by
  rw [isDeviceMini_snd, hread]

/-- Instance of C3: two calls in a row with a Mini device active both return true. -/
theorem isDeviceMini_twice_witness :
    (store.getActiveDevice ⟨miniDevice, []⟩).2 = ⟨miniDevice, []⟩ ∧
    (isDeviceMini store ⟨miniDevice, []⟩).1 = .ok true ∧
    isDeviceMini store (isDeviceMini store ⟨miniDevice, []⟩).2
      = isDeviceMini store ⟨miniDevice, []⟩ :=
  ⟨rfl, rfl, isDeviceMini_twice store ⟨miniDevice, []⟩ rfl⟩

/-- C4: the query touches the store through one call of `getActiveDevice` and nothing
else: for every store, the state after the query is the state that call leaves, and the
outcome is computed from what that call returned.  With the getter of the spec, which
writes nothing, the store state after the query is the state before it. -/
theorem isDeviceMini_pure_read {S : Type} (api : StoreApi S) (s : S) (st : Store) :
    (isDeviceMini api s).2 = (api.getActiveDevice s).2 ∧
    (isDeviceMini api s).1 =
      (match (api.getActiveDevice s).1 with
       | .error e => .error e
       | .ok d => queryResult d) ∧
    (isDeviceMini store st).2 = st := by
  refine ⟨isDeviceMini_snd api s, ?_, ?_⟩
  · rcases h : api.getActiveDevice s with ⟨r, s1⟩
    cases r with
    | error e => rw [isDeviceMini_of_get_error api s s1 e h]
    | ok d => rw [isDeviceMini_of_get api s s1 d h]
  · rw [isDeviceMini_snd]
    rfl

/-- C5: when the getter returns `undefined`, the query throws the TypeError of reading
`hardware` of `undefined`, and returns no boolean. -/
theorem isDeviceMini_no_active_device {S : Type} (api : StoreApi S) (s s1 : S)
    (hget : api.getActiveDevice s = (.ok .undefined, s1)) :
    (isDeviceMini api s).1 = .error (.cannotRead .undefined "hardware") ∧
    ∀ b : Bool, (isDeviceMini api s).1 ≠ .ok b := by
  have h : (isDeviceMini api s).1 = .error (.cannotRead .undefined "hardware") := by
    rw [isDeviceMini_of_get api s s1 .undefined hget]
    rfl
  refine ⟨h, ?_⟩
  intro b hb
  rw [h] at hb
  cases hb

/-- Instance of C5: the store of the spec with no active device. -/
theorem isDeviceMini_no_active_device_witness :
    store.getActiveDevice ⟨.undefined, []⟩ = (.ok .undefined, ⟨.undefined, []⟩) ∧
    (isDeviceMini store ⟨.undefined, []⟩).1 = .error (.cannotRead .undefined "hardware") :=
  ⟨rfl, (isDeviceMini_no_active_device store ⟨.undefined, []⟩ ⟨.undefined, []⟩ rfl).1⟩

/-- C9: with the descriptor `d` returned by the getter, the query returns a boolean
whenever `d.hardware` is an object, and that boolean is false when `device_type` is
absent from it or bound to a value that is not a string; the query throws exactly when
`d` is `undefined` or `null`, or `d.hardware` is. -/
theorem isDeviceMini_fails_iff {S : Type} (api : StoreApi S) (s s1 : S) (d : JSVal)
    (hget : api.getActiveDevice s = (.ok d, s1)) :
    (∀ fields : List (String × JSVal), getProp d "hardware" = .ok (.obj fields) →
      (∃ b : Bool, (isDeviceMini api s).1 = .ok b) ∧
      (fields.lookup "device_type" = none → (isDeviceMini api s).1 = .ok false) ∧
      (∀ t : JSVal, fields.lookup "device_type" = some t → t.isString = false →
        (isDeviceMini api s).1 = .ok false)) ∧
    ((∃ e, (isDeviceMini api s).1 = .error e) ↔
      (d.isNullish = true ∨ ∃ hw, getProp d "hardware" = .ok hw ∧ hw.isNullish = true)) := by
  rw [isDeviceMini_of_get api s s1 d hget]
  constructor
  · intro fields hhw
    have hdt := deviceType_of_hardware d (.obj fields) hhw
    refine ⟨?_, ?_, ?_⟩
    · obtain ⟨t, ht⟩ := getProp_obj_ok fields "device_type"
      exact ⟨strictEqStr t "Mini", queryResult_of_deviceType d t (hdt.trans ht)⟩
    · intro hl
      rw [queryResult_of_deviceType d .undefined
        (hdt.trans (getProp_obj_none fields "device_type" hl))]
      rfl
    · intro t hl ht
      rw [queryResult_of_deviceType d t
        (hdt.trans (getProp_obj_some fields "device_type" t hl)),
        strictEqStr_of_not_string t "Mini" ht]
  · cases h1 : getProp d "hardware" with
    | error e =>
      have hn : d.isNullish = true := (getProp_error_iff d "hardware").1 ⟨e, h1⟩
      simp [queryResult, deviceType, h1, hn]
    | ok hw =>
      have hd : d.isNullish = false := by
        cases hdn : d.isNullish with
        | false => rfl
        | true =>
          obtain ⟨e, he⟩ := (getProp_error_iff d "hardware").2 hdn
          rw [h1] at he
          cases he
      cases h2 : getProp hw "device_type" with
      | error e =>
        have hn : hw.isNullish = true := (getProp_error_iff hw "device_type").1 ⟨e, h2⟩
        simp [queryResult, deviceType, h1, h2, hn]
      | ok t =>
        have hn : hw.isNullish = false := by
          cases hwn : hw.isNullish with
          | false => rfl
          | true =>
            obtain ⟨e, he⟩ := (getProp_error_iff hw "device_type").2 hwn
            rw [h2] at he
            cases he
        simp [queryResult, deviceType, h1, h2, hn, hd]

/-- Instance of C9: a hardware record without `device_type` gives false, and a
descriptor without a hardware record makes the query throw. -/
theorem isDeviceMini_fails_iff_witness :
    store.getActiveDevice ⟨untypedDevice, []⟩ = (.ok untypedDevice, ⟨untypedDevice, []⟩) ∧
    (isDeviceMini store ⟨untypedDevice, []⟩).1 = .ok false ∧
    ∃ e, (isDeviceMini store ⟨.obj [], []⟩).1 = .error e :=
  ⟨rfl,
   ((isDeviceMini_fails_iff store ⟨untypedDevice, []⟩ ⟨untypedDevice, []⟩ untypedDevice
      rfl).1 [("usb_device", .num 3)] rfl).2.1 rfl,
   (isDeviceMini_fails_iff store ⟨.obj [], []⟩ ⟨.obj [], []⟩ (.obj []) rfl).2.2
      (Or.inr ⟨.undefined, rfl, rfl⟩)⟩

/-- C10: the outcome of the query is a function of `hardware.device_type` of the
descriptor the getter returns: two store states whose descriptors agree on
`d.hardware.device_type` give the same outcome, whatever else the descriptors and the
store states hold. -/
theorem isDeviceMini_depends_on_device_type {S : Type} (api : StoreApi S)
    (s1 s1a s2 s2a : S) (d1 d2 : JSVal)
    (hget1 : api.getActiveDevice s1 = (.ok d1, s1a))
    (hget2 : api.getActiveDevice s2 = (.ok d2, s2a))
    (heq : deviceType d1 = deviceType d2) :
    (isDeviceMini api s1).1 = (isDeviceMini api s2).1 := by
  rw [isDeviceMini_of_get api s1 s1a d1 hget1, isDeviceMini_of_get api s2 s2a d2 hget2]
  simp only [queryResult, heq]

/-- Instance of C10: two Mini descriptors with different other fields, in stores with
different other contents. -/
theorem isDeviceMini_depends_on_device_type_witness :
    deviceType miniDevice = deviceType otherMiniDevice ∧
    (isDeviceMini store ⟨miniDevice, []⟩).1
      = (isDeviceMini store ⟨otherMiniDevice, [("active", .str "S220202153CQK")]⟩).1 :=
  ⟨rfl,
   isDeviceMini_depends_on_device_type store ⟨miniDevice, []⟩ ⟨miniDevice, []⟩
     ⟨otherMiniDevice, [("active", .str "S220202153CQK")]⟩
     ⟨otherMiniDevice, [("active", .str "S220202153CQK")]⟩ miniDevice otherMiniDevice
     rfl rfl rfl⟩

/-! ## The bootstrap script -/

/-- The run of the script, statement by statement: each call is made in the state the
previous one left, and the first exception ends the run. -/
theorem main_eq {W A : Type} (fw : Framework W A) (w : W) :
    main fw w =
      match fw.createApp App w with
      | (.error e, w1) => (.error e, w1)
      | (.ok app, w1) =>
        match fw.libraryAdd
          [faAngleDown, faHandPointer, faClock, faPalette, faGear, faVolumeXmark] w1 with
        | (.error e, w2) => (.error e, w2)
        | (.ok _, w2) =>
          match fw.component app "font-awesome-icon" FontAwesomeIcon w2 with
          | (.error e, w3) => (.error e, w3)
          | (.ok _, w3) =>
            match fw.use app router w3 with
            | (.error e, w4) => (.error e, w4)
            | (.ok _, w4) => fw.mount app "#app" w4 := by
  simp only [main, bind]
  rcases h1 : fw.createApp App w with ⟨r1, w1⟩
  cases r1 with
  | error e => rfl
  | ok app =>
    simp only []
    rcases h2 : fw.libraryAdd
      [faAngleDown, faHandPointer, faClock, faPalette, faGear, faVolumeXmark] w1 with ⟨r2, w2⟩
    cases r2 with
    | error e => rfl
    | ok u2 =>
      simp only []
      rcases h3 : fw.component app "font-awesome-icon" FontAwesomeIcon w2 with ⟨r3, w3⟩
      cases r3 with
      | error e => rfl
      | ok u3 =>
        simp only []
        rcases h4 : fw.use app router w3 with ⟨r4, w4⟩
        cases r4 with
        | error e => rfl
        | ok u4 => rfl

/-- When `createApp` throws, the run ends there and the framework received that one
call. -/
theorem main_of_createApp_error {W A : Type} (fw : Framework W A) (w w1 : W)
    (e : JSError) (h : fw.createApp App w = (.error e, w1)) :
    main fw w = (.error e, w1) ∧ callsOf fw w = [.createApp App] := by
  constructor
  · rw [main_eq, h]
  · simp only [callsOf, main_eq, recording, observe, h, List.nil_append]

/-- When `createApp` returns `app`, the framework received the first `k` of the five
calls on `app`, for some `k` from 2 to 5, and a run cut short ended with an exception. -/
theorem callsOf_of_createApp_ok {W A : Type} (fw : Framework W A) (w w1 : W) (app : A)
    (h : fw.createApp App w = (.ok app, w1)) :
    ∃ k, 2 ≤ k ∧ k ≤ 5 ∧ callsOf fw w = (bootCalls app).take k ∧
      (k < 5 → ∃ e, (main fw w).1 = .error e) := by
  simp only [callsOf, main_eq, recording, observe, h, List.nil_append]
  rcases h2 : fw.libraryAdd
    [faAngleDown, faHandPointer, faClock, faPalette, faGear, faVolumeXmark] w1 with ⟨r2, w2⟩
  cases r2 with
  | error e => exact ⟨2, by omega, by omega, rfl, fun _ => ⟨e, rfl⟩⟩
  | ok u2 =>
    simp only []
    rcases h3 : fw.component app "font-awesome-icon" FontAwesomeIcon w2 with ⟨r3, w3⟩
    cases r3 with
    | error e => exact ⟨3, by omega, by omega, rfl, fun _ => ⟨e, rfl⟩⟩
    | ok u3 =>
      simp only []
      rcases h4 : fw.use app router w3 with ⟨r4, w4⟩
      cases r4 with
      | error e => exact ⟨4, by omega, by omega, rfl, fun _ => ⟨e, rfl⟩⟩
      | ok u4 => exact ⟨5, by omega, by omega, rfl, fun hk => absurd hk (by omega)⟩

/-- Observation changes nothing: under observation the script ends the same way and
leaves the same world. -/
theorem main_recording {W A : Type} (fw : Framework W A) (w : W) (log : List (Call A)) :
    (main (recording fw) (w, log)).1 = (main fw w).1 ∧
    (main (recording fw) (w, log)).2.1 = (main fw w).2 := by
  simp only [main_eq, recording, observe]
  rcases h1 : fw.createApp App w with ⟨r1, w1⟩
  cases r1 with
  | error e => exact ⟨rfl, rfl⟩
  | ok app =>
    simp only []
    rcases h2 : fw.libraryAdd
      [faAngleDown, faHandPointer, faClock, faPalette, faGear, faVolumeXmark] w1 with ⟨r2, w2⟩
    cases r2 with
    | error e => exact ⟨rfl, rfl⟩
    | ok u2 =>
      simp only []
      rcases h3 : fw.component app "font-awesome-icon" FontAwesomeIcon w2 with ⟨r3, w3⟩
      cases r3 with
      | error e => exact ⟨rfl, rfl⟩
      | ok u3 =>
        simp only []
        rcases h4 : fw.use app router w3 with ⟨r4, w4⟩
        cases r4 with
        | error e => exact ⟨rfl, rfl⟩
        | ok u4 => exact ⟨rfl, rfl⟩

/-- Once the first four calls have returned, the run ends the way `app.mount('#app')`
ends, in the state that call leaves: the script adds no check of the host element and no
handler of its own. -/
theorem main_ends_as_mount {W A : Type} (fw : Framework W A) (w w1 w2 w3 w4 : W)
    (app : A)
    (h1 : fw.createApp App w = (.ok app, w1))
    (h2 : fw.libraryAdd
      [faAngleDown, faHandPointer, faClock, faPalette, faGear, faVolumeXmark] w1 = (.ok (), w2))
    (h3 : fw.component app "font-awesome-icon" FontAwesomeIcon w2 = (.ok (), w3))
    (h4 : fw.use app router w3 = (.ok (), w4)) :
    main fw w = fw.mount app "#app" w4 := by
  rw [main_eq, h1]
  simp only [h2, h3, h4]

/-- The calls the framework receives once the first four calls have returned. -/
theorem callsOf_of_four_ok {W A : Type} (fw : Framework W A) (w w1 w2 w3 w4 : W)
    (app : A)
    (h1 : fw.createApp App w = (.ok app, w1))
    (h2 : fw.libraryAdd
      [faAngleDown, faHandPointer, faClock, faPalette, faGear, faVolumeXmark] w1 = (.ok (), w2))
    (h3 : fw.component app "font-awesome-icon" FontAwesomeIcon w2 = (.ok (), w3))
    (h4 : fw.use app router w3 = (.ok (), w4)) :
    callsOf fw w = bootCalls app := by
  simp only [callsOf, main_eq, recording, observe, h1, h2, h3, h4, List.nil_append]
  rfl

/-- C6: for every behaviour of the framework functions, the calls the framework receives
in a run are an initial segment of `createApp(App)`, `library.add(...)`,
`app.component('font-awesome-icon', FontAwesomeIcon)`, `app.use(router)`,
`app.mount('#app')`, in this order and on the instance `createApp` returned.  A run that
ends without exception, and any run in which `mount` is called, has made exactly these
five calls, once each, with `mount` last.  Each call acts on the state the previous call
left: when the first four return, the run ends as `mount` ends in the state after them,
and when `createApp` throws the run ends there. -/
theorem main_calls_in_order {W A : Type} (fw : Framework W A) (w : W) :
    (∀ e w1, fw.createApp App w = (.error e, w1) →
      main fw w = (.error e, w1) ∧ callsOf fw w = [.createApp App]) ∧
    (∀ app w1, fw.createApp App w = (.ok app, w1) →
      callsOf fw w <+: bootCalls app ∧
      ((main fw w).1 = .ok () → callsOf fw w = bootCalls app) ∧
      (Call.mount app "#app" ∈ callsOf fw w → callsOf fw w = bootCalls app)) ∧
    (∀ app w1 w2 w3 w4, fw.createApp App w = (.ok app, w1) →
      fw.libraryAdd
        [faAngleDown, faHandPointer, faClock, faPalette, faGear, faVolumeXmark] w1
          = (.ok (), w2) →
      fw.component app "font-awesome-icon" FontAwesomeIcon w2 = (.ok (), w3) →
      fw.use app router w3 = (.ok (), w4) →
      main fw w = fw.mount app "#app" w4 ∧ callsOf fw w = bootCalls app) ∧
    ((main (recording fw) (w, [])).1 = (main fw w).1 ∧
      (main (recording fw) (w, [])).2.1 = (main fw w).2) := by
  refine ⟨?_, ?_, ?_, main_recording fw w []⟩
  · intro e w1 h
    exact main_of_createApp_error fw w w1 e h
  · intro app w1 h
    obtain ⟨k, hk2, hk5, hcalls, hres⟩ := callsOf_of_createApp_ok fw w w1 app h
    refine ⟨?_, ?_, ?_⟩
    · rw [hcalls]
      exact List.take_prefix k (bootCalls app)
    · intro hok
      have hk : k = 5 := by
        by_contra hne
        obtain ⟨e, he⟩ := hres (by omega)
        rw [hok] at he
        cases he
      rw [hcalls, hk]
      rfl
    · intro hmem
      rw [hcalls] at hmem ⊢
      interval_cases k
      · simp [bootCalls] at hmem
      · simp [bootCalls] at hmem
      · simp [bootCalls] at hmem
      · rfl
  · intro app w1 w2 w3 w4 h1 h2 h3 h4
    exact ⟨main_ends_as_mount fw w w1 w2 w3 w4 app h1 h2 h3 h4,
      callsOf_of_four_ok fw w w1 w2 w3 w4 app h1 h2 h3 h4⟩

/-- Instance of C6: on the sample framework the script makes the five calls and leaves
the page they produce; with a plugin attachment that throws it stops after four calls
and nothing is mounted. -/
theorem main_calls_in_order_witness :
    plainFramework.createApp App blankPage = (.ok 0, ⟨1, [], [], [], []⟩) ∧
    main plainFramework blankPage = (.ok (), bootedPage) ∧
    callsOf plainFramework blankPage = bootCalls 0 ∧
    callsOf failingUseFramework blankPage <+: bootCalls 0 ∧
    (main failingUseFramework blankPage).2.mounted = [] :=
  ⟨rfl,
   ((main_calls_in_order plainFramework blankPage).2.2.1 0 ⟨1, [], [], [], []⟩
      ⟨1, sixIcons, [], [], []⟩
      ⟨1, sixIcons, [(0, "font-awesome-icon", FontAwesomeIcon)], [], []⟩
      ⟨1, sixIcons, [(0, "font-awesome-icon", FontAwesomeIcon)], [(0, router)], []⟩
      rfl rfl rfl rfl).1,
   ((main_calls_in_order plainFramework blankPage).2.1 0 ⟨1, [], [], [], []⟩ rfl).2.1 rfl,
   ((main_calls_in_order failingUseFramework blankPage).2.1 0 ⟨1, [], [], [], []⟩ rfl).1,
   rfl⟩

/-- The icon library after the script, when no call but `library.add` writes it: it is
the library that the one `library.add` call left. -/
theorem main_icons_frame {W A : Type} (fw : Framework W A) (reg : W → List Import)
    (w w1 : W) (app : A)
    (hcreate : fw.createApp App w = (.ok app, w1))
    (hcomponent : ∀ a name comp v, reg (fw.component a name comp v).2 = reg v)
    (huse : ∀ a plugin v, reg (fw.use a plugin v).2 = reg v)
    (hmount : ∀ a selector v, reg (fw.mount a selector v).2 = reg v) :
    reg (main fw w).2 = reg (fw.libraryAdd
      [faAngleDown, faHandPointer, faClock, faPalette, faGear, faVolumeXmark] w1).2 := by
  rw [main_eq, hcreate]
  simp only []
  rcases h2 : fw.libraryAdd
    [faAngleDown, faHandPointer, faClock, faPalette, faGear, faVolumeXmark] w1 with ⟨r2, w2⟩
  cases r2 with
  | error e => rfl
  | ok u2 =>
    simp only []
    have e3 := hcomponent app "font-awesome-icon" FontAwesomeIcon w2
    rcases h3 : fw.component app "font-awesome-icon" FontAwesomeIcon w2 with ⟨r3, w3⟩
    rw [h3] at e3
    cases r3 with
    | error e => exact e3
    | ok u3 =>
      simp only [] at e3 ⊢
      have e4 := huse app router w3
      rcases h4 : fw.use app router w3 with ⟨r4, w4⟩
      rw [h4] at e4
      cases r4 with
      | error e => exact e4.trans e3
      | ok u4 =>
        simp only [] at e4 ⊢
        exact (hmount app "#app" w4).trans (e4.trans e3)

/-- C7: take any framework in which `library.add` puts its arguments into the global icon
library `reg` and no other function writes that library.  In a run in which `createApp`
returns, the library after the script holds what it held before plus exactly the six
icons: none of the six is missing, nothing else was added, and every imported icon is
in it.  The framework receives a `library.add` call with the six icons and no
`library.add` call with any other argument list. -/
theorem main_registers_six_icons {W A : Type} (fw : Framework W A)
    (reg : W → List Import) (w w1 : W) (app : A)
    (hcreate : fw.createApp App w = (.ok app, w1))
    (hadd : ∀ icons v icon,
      icon ∈ reg (fw.libraryAdd icons v).2 ↔ icon ∈ reg v ∨ icon ∈ icons)
    (hcreateApp : ∀ root v, reg (fw.createApp root v).2 = reg v)
    (hcomponent : ∀ a name comp v, reg (fw.component a name comp v).2 = reg v)
    (huse : ∀ a plugin v, reg (fw.use a plugin v).2 = reg v)
    (hmount : ∀ a selector v, reg (fw.mount a selector v).2 = reg v) :
    (∀ icon, icon ∈ reg (main fw w).2 ↔ icon ∈ reg w ∨ icon ∈ sixIcons) ∧
    (reg w = [] → ∀ icon, icon ∈ reg (main fw w).2 ↔ icon ∈ sixIcons) ∧
    (∀ icon, icon ∈ importedIcons → icon ∈ reg (main fw w).2) ∧
    (∀ icon, icon ∈ sixIcons ↔ icon ∈ importedIcons) ∧
    Call.libraryAdd sixIcons ∈ callsOf fw w ∧
    (∀ icons, Call.libraryAdd icons ∈ callsOf fw w → icons = sixIcons) := by
  have hw1 : reg w1 = reg w := by
    have h := hcreateApp App w
    rw [hcreate] at h
    exact h
  have hmem : ∀ icon, icon ∈ reg (main fw w).2 ↔ icon ∈ reg w ∨ icon ∈ sixIcons := by
    intro icon
    rw [main_icons_frame fw reg w w1 app hcreate hcomponent huse hmount, hadd, hw1]
    rfl
  have hsix : ∀ icon, icon ∈ sixIcons ↔ icon ∈ importedIcons := by
    intro icon
    constructor
    · revert icon
      decide
    · revert icon
      decide
  obtain ⟨k, hk2, hk5, hcalls, _⟩ := callsOf_of_createApp_ok fw w w1 app hcreate
  refine ⟨hmem, ?_, ?_, hsix, ?_, ?_⟩
  · intro hempty icon
    rw [hmem icon, hempty]
    simp
  · intro icon hi
    exact (hmem icon).2 (Or.inr ((hsix icon).2 hi))
  · rw [hcalls]
    interval_cases k <;> simp [bootCalls, sixIcons]
  · intro icons hi
    rw [hcalls] at hi
    interval_cases k <;> simp [bootCalls] at hi <;> rw [hi] <;> rfl

/-- Instance of C7: on the sample framework, started on a blank page, the icon library
after the script is the six icons. -/
theorem main_registers_six_icons_witness :
    plainFramework.createApp App blankPage = (.ok 0, ⟨1, [], [], [], []⟩) ∧
    (main plainFramework blankPage).2.icons
      = [faAngleDown, faHandPointer, faClock, faPalette, faGear, faVolumeXmark] ∧
    ∀ icon, icon ∈ (main plainFramework blankPage).2.icons ↔ icon ∈ sixIcons :=
  ⟨rfl, rfl,
   (main_registers_six_icons plainFramework Page.icons blankPage ⟨1, [], [], [], []⟩ 0 rfl
      (fun _ _ _ => List.mem_append) (fun _ _ => rfl) (fun _ _ _ _ => rfl)
      (fun _ _ _ => rfl) (fun _ _ _ => rfl)).2.1 rfl⟩

end GoXLR
